import Mathlib

/-!
# Verification of the atwinc1500-rs SPI / HIF protocol core

Shallow embedding of the wire-protocol core of the `atwinc1500` driver:
the SPI command encoder (`src/spi.rs`), the HIF header codec and host
interface engine (`src/hif.rs`), the opcode tables (`src/hif.rs`,
`src/socket.rs`) and the error taxonomy (`src/error.rs`).

Machine integers are modelled as `Nat` with explicit reductions
(`% 256` for `u8`, `% 65536` and wrapping subtraction for `u16`,
`% 2^32` and wrapping arithmetic for `u32`) exactly where the Rust
code performs fixed-width arithmetic.  The SPI peripheral is modelled
as a byte oracle `dev : Nat → Nat`: `dev i` is the byte the chip
drives on the bus for the `i`-th byte exchanged since reset.  Each
`transfer` call records the bytes written by the host in a trace, and
replaces the buffer contents with the oracle's bytes, mirroring the
in-place full-duplex `Transfer::transfer` of `embedded-hal`.  Pin and
transport failures of the `embedded-hal` implementations are not
modelled: every exchange succeeds, which is the regime all the
response-validation properties quantify over.
-/

namespace Atwinc

/-- Little-endian byte `k` of `x`, i.e. `(x >> (8*k)) as u8`. -/
def byteAt (x k : Nat) : Nat := (x >>> (8 * k)) % 256

/-- u16 wrapping subtraction. -/
def sub16 (a b : Nat) : Nat := ((a % 65536) + 65536 - (b % 65536)) % 65536

/-- u32 wrapping addition. -/
def add32 (a b : Nat) : Nat := (a + b) % 4294967296

/-- u32 wrapping subtraction. -/
def sub32 (a b : Nat) : Nat := ((a % 4294967296) + 4294967296 - (b % 4294967296)) % 4294967296

/-- Macro `combine_bytes!` (src/macros.rs, lines 9-18): big-endian fold of a
byte buffer into a `u32` (`value <<= 8; value |= buffer[i]` forwards). -/
def combine_bytes (buffer : List Nat) : Nat :=
  buffer.foldl (fun value b => ((value <<< 8) % 4294967296) ||| b) 0

/-- Macro `combine_bytes_lsb!` (src/macros.rs, lines 22-31): little-endian fold
of a byte buffer into a `u32` (iterates the index range in reverse). -/
def combine_bytes_lsb (buffer : List Nat) : Nat :=
  buffer.reverse.foldl (fun value b => ((value <<< 8) % 4294967296) ||| b) 0

/-- Reinterpret a byte as a signed 8-bit integer (`as i8`). -/
def toI8 (b : Nat) : Int := if b % 256 < 128 then (b % 256 : Int) else (b % 256 : Int) - 256

/-! ## The SPI layer (src/spi.rs) -/

/-- Enum `spi::Command` (src/spi.rs, lines 9-25): the closed set of eleven
SPI wire opcodes. -/
inductive SpiCmd where
  | CmdDmaWrite
  | CmdDmaRead
  | CmdInternalWrite
  | CmdInternalRead
  | CmdTerminate
  | CmdRepeat
  | CmdDmaExtWrite
  | CmdDmaExtRead
  | CmdSingleWrite
  | CmdSingleRead
  | CmdReset
deriving DecidableEq, Repr

/-- Discriminants of `spi::Command` (`command as u8`), src/spi.rs lines 14-24. -/
def SpiCmd.toU8 : SpiCmd → Nat
  | .CmdDmaWrite => 0xc1
  | .CmdDmaRead => 0xc2
  | .CmdInternalWrite => 0xc3
  | .CmdInternalRead => 0xc4
  | .CmdTerminate => 0xc5
  | .CmdRepeat => 0xc6
  | .CmdDmaExtWrite => 0xc7
  | .CmdDmaExtRead => 0xc8
  | .CmdSingleWrite => 0xc9
  | .CmdSingleRead => 0xca
  | .CmdReset => 0xcf

-- The `sizes` module (src/spi.rs, lines 29-44).
namespace sizes
def CRC_BIT : Nat := 1
def RESPONSE : Nat := 2
def DATA_START : Nat := 1
def DATA : Nat := 4
def TYPE_A : Nat := 4
def TYPE_B : Nat := 6
def TYPE_C : Nat := 7
def TYPE_D : Nat := 8
def TYPE_A_CRC : Nat := TYPE_A + CRC_BIT
def TYPE_B_CRC : Nat := TYPE_B + CRC_BIT
def TYPE_C_CRC : Nat := TYPE_C + CRC_BIT
def TYPE_D_CRC : Nat := TYPE_D + CRC_BIT
end sizes

/-- The wire-payload shape length of each opcode, per the type
annotations on the `Command` enum (src/spi.rs, lines 14-24):
TYPE_A = 4, TYPE_B = 6, TYPE_C = 7, TYPE_D = 8. -/
def SpiCmd.shapeLen : SpiCmd → Nat
  | .CmdDmaWrite => sizes.TYPE_B
  | .CmdDmaRead => sizes.TYPE_B
  | .CmdInternalWrite => sizes.TYPE_C
  | .CmdInternalRead => sizes.TYPE_A
  | .CmdTerminate => sizes.TYPE_A
  | .CmdRepeat => sizes.TYPE_A
  | .CmdDmaExtWrite => sizes.TYPE_C
  | .CmdDmaExtRead => sizes.TYPE_C
  | .CmdSingleWrite => sizes.TYPE_D
  | .CmdSingleRead => sizes.TYPE_A
  | .CmdReset => sizes.TYPE_A

/-- Modelled from the spec: `lib.rs` declares `mod crc` and `src/spi.rs`
imports `crate::crc::crc7`, but `src/crc.rs` is not present under
`src/`.  The spec describes it as "CRC7: a 7-bit cyclic redundancy
check appended to certain SPI command buffers" and "CRC7 polynomial
computation (a pure, already-solved function)".  We model the standard
CRC-7 (generator x^7 + x^3 + 1), seeded by the caller-supplied initial
value, consuming each byte most-significant bit first.  None of the
theorems below depend on the internals of this function, only on it
being a deterministic pure function of its arguments.
This is one MSB-first bit step of that CRC. -/
def crc7Step (crc bit : Nat) : Nat :=
  let inv := bit ^^^ ((crc >>> 6) % 2)
  let crc' := (crc <<< 1) % 128
  if inv == 1 then crc' ^^^ 0x09 else crc'

/-- Modelled from the spec: CRC-7 of one byte, MSB first (see `crc7Step` for what is missing from src/). -/
def crc7Byte (crc b : Nat) : Nat :=
  (List.range 8).foldl (fun c i => crc7Step c ((b >>> (7 - i)) % 2)) crc

/-- Modelled from the spec: the missing `crc::crc7(crc, buffer)` of the absent `src/crc.rs` (see `crc7Step`). -/
def crc7 (crc : Nat) (buffer : List Nat) : Nat :=
  buffer.foldl crc7Byte (crc % 128)

/-- Error enum `SpiError` with the constructor arities used at the call sites in
src/spi.rs (lines 271, 313, 358, 407). -/
inductive SpiError where
  | PinStateError
  | TransferError
  | ReadDataError (cmd : Nat) (err : Nat)
  | ReadRegisterError (cmd : Nat) (err : Nat) (pkt : Nat)
  | WriteDataError (cmd : Nat) (err : Nat)
  | WriteRegisterError (cmd : Nat) (err : Nat)
deriving DecidableEq, Repr

/-- The host side of the bus: how many bytes have been exchanged so far
and the log of buffers the host has clocked out (`transfer` calls). -/
structure BusState where
  pos : Nat
  trace : List (List Nat)
deriving DecidableEq, Repr

/-- Method `SpiBus::transfer` (src/spi.rs, lines 103-114): full-duplex
exchange.  The bytes of `words` are clocked out (recorded in the
trace); the buffer is replaced by the device's bytes. -/
def transfer (dev : Nat → Nat) (words : List Nat) (s : BusState) :
    List Nat × BusState :=
  ((List.range words.length).map (fun i => dev (s.pos + i) % 256),
   ⟨s.pos + words.length, s.trace ++ [words]⟩)

/-- The `crc`/`crc_disabled` configuration of `SpiBus`
(src/spi.rs, lines 61-70); the generic transport and pin are the
`dev` oracle of the model. -/
structure SpiBus where
  crc : Bool
  crc_disabled : Bool
deriving DecidableEq, Repr

/-- The `match command` block of `SpiBus::command` (src/spi.rs,
lines 129-214): fills the command buffer and returns it together with
the `crc_index` chosen by the matched arm. -/
def commandFill (command : SpiCmd) (address data size : Nat)
    (clockless : Bool) (buf : List Nat) : List Nat × Nat :=
  let buf := buf.set 0 command.toU8
  match command with
  | .CmdDmaWrite => (buf, 0)
  | .CmdDmaRead =>
      (((((buf.set 1 (byteAt address 2)).set 2 (byteAt address 1)).set 3
        (byteAt address 0)).set 4 (byteAt size 1)).set 5 (byteAt size 0),
       sizes.TYPE_B)
  | .CmdInternalWrite =>
      let a1 := if clockless then byteAt address 1 ||| (1 <<< 7) else byteAt address 1
      ((((((buf.set 1 a1).set 2 (byteAt address 0)).set 3 (byteAt data 3)).set 4
        (byteAt data 2)).set 5 (byteAt data 1)).set 6 (byteAt data 0),
       sizes.TYPE_C)
  | .CmdInternalRead =>
      let a1 := if clockless then byteAt address 1 ||| (1 <<< 7) else byteAt address 1
      (((buf.set 1 a1).set 2 (byteAt address 0)).set 3 0, sizes.TYPE_A)
  | .CmdTerminate => (((buf.set 1 0).set 2 0).set 3 0, sizes.TYPE_A)
  | .CmdRepeat => (((buf.set 1 0).set 2 0).set 3 0, sizes.TYPE_A)
  | .CmdDmaExtWrite =>
      ((((((buf.set 1 (byteAt address 2)).set 2 (byteAt address 1)).set 3
        (byteAt address 0)).set 4 (byteAt size 2)).set 5 (byteAt size 1)).set 6
        (byteAt size 0),
       0)
  | .CmdDmaExtRead =>
      ((((((buf.set 1 (byteAt address 2)).set 2 (byteAt address 1)).set 3
        (byteAt address 0)).set 4 (byteAt size 2)).set 5 (byteAt size 1)).set 6
        (byteAt size 0),
       0)
  | .CmdSingleWrite =>
      (((((((buf.set 1 (byteAt address 2)).set 2 (byteAt address 1)).set 3
        (byteAt address 0)).set 4 (byteAt data 3)).set 5 (byteAt data 2)).set 6
        (byteAt data 1)).set 7 (byteAt data 0),
       sizes.TYPE_D)
  | .CmdSingleRead =>
      ((((buf.set 1 (byteAt address 2)).set 2 (byteAt address 1)).set 3
        (byteAt address 0)),
       sizes.TYPE_A)
  | .CmdReset => (((buf.set 1 0xff).set 2 0xff).set 3 0xff, sizes.TYPE_A)

/-- The bytes `SpiBus::command` (src/spi.rs, lines 120-220) clocks
out: the command buffer of length `bufLen` (`[0; S]` at the caller),
filled by the match, with the CRC7 byte stored at `crc_index` when CRC
is active (`self.crc || !self.crc_disabled`, line 215). -/
def commandWritten (bus : SpiBus) (bufLen : Nat) (cmd : SpiCmd)
    (address data size : Nat) (clockless : Bool) : List Nat :=
  let (buf, crc_index) :=
    commandFill cmd address data size clockless (List.replicate bufLen 0)
  if bus.crc || !bus.crc_disabled then
    buf.set crc_index ((crc7 0x7f (buf.take crc_index) <<< 1) % 256)
  else buf

/-- Method `SpiBus::command` (src/spi.rs, lines 120-220): builds the
command buffer and transfers it.  Returns the post-transfer buffer
(the device's response bytes) and the new bus state. -/
def command (dev : Nat → Nat) (bus : SpiBus) (bufLen : Nat) (cmd : SpiCmd)
    (address data size : Nat) (clockless : Bool) (s : BusState) :
    List Nat × BusState :=
  transfer dev (commandWritten bus bufLen cmd address data size clockless) s

/-- Decode of a status nibble into `SpiCommandError` (src/error.rs,
lines 31-45); represented by its `u8` discriminant, with 6 standing
for `InvalidError`. -/
def spiCommandErrorFromU8 (b : Nat) : Nat :=
  if b ≤ 5 then b else 6

/-- Selection of the read command by the clockless threshold
(src/spi.rs, lines 257-265): addresses at or below `0xff` use
`CMD_INTERNAL_READ` clockless, larger ones `CMD_SINGLE_READ`. -/
def readRegCmd (address : Nat) : SpiCmd × Bool :=
  if address ≤ 0xff then (.CmdInternalRead, true) else (.CmdSingleRead, false)

/-- Method `SpiBus::read_reg` (src/spi.rs, lines 247-278): issues the
command and validates the echoed opcode, the status nibble and the
`0xf0` marker before assembling the little-endian result from
`cmd_buffer[beg..end]`. -/
def read_reg (dev : Nat → Nat) (bus : SpiBus) (S : Nat) (address : Nat)
    (beg endIdx response_start : Nat) (s : BusState) :
    Except SpiError Nat × BusState :=
  let (cmd, clockless) := readRegCmd address
  let (buf, s') := command dev bus S cmd address 0 0 clockless s
  if buf.getD response_start 0 ≠ cmd.toU8
      ∨ (buf.getD (response_start + 1) 0) &&& 0x0f ≠ 0
      ∨ (buf.getD (response_start + 2) 0) &&& 0xf0 ≠ 0xf0 then
    (.error (.ReadRegisterError cmd.toU8
        (spiCommandErrorFromU8 ((buf.getD (response_start + 1) 0) &&& 0x0f))
        (buf.getD (response_start + 2) 0)),
     s')
  else
    (.ok (combine_bytes_lsb ((buf.drop beg).take (endIdx - beg))), s')

/-- Method `SpiBus::read_register` (src/spi.rs, lines 224-243): wraps
`read_reg` with the buffer size and offsets picked by `crc_disabled`. -/
def read_register (dev : Nat → Nat) (bus : SpiBus) (address : Nat)
    (s : BusState) : Except SpiError Nat × BusState :=
  match bus.crc_disabled with
  | true =>
      read_reg dev bus (sizes.TYPE_A + sizes.RESPONSE + sizes.DATA_START + sizes.DATA)
        address 7 11 4 s
  | false =>
      read_reg dev bus (sizes.TYPE_A_CRC + sizes.RESPONSE + sizes.DATA_START + sizes.DATA)
        address 8 12 5 s

/-- The `retry_while!(response[0] == 0, retries = 10, ...)` loop of
`SpiBus::read` (src/spi.rs, line 307, src/macros.rs lines 33-41):
while the first response byte is zero and retries remain, re-transfer
the whole response buffer. -/
def readPoll (dev : Nat → Nat) (response : List Nat) (r : Nat)
    (s : BusState) : List Nat × BusState :=
  match r with
  | 0 => (response, s)
  | r' + 1 =>
      if response.getD 0 0 == 0 then
        let (response', s') := transfer dev response s
        readPoll dev response' r' s'
      else (response, s)

/-- Method `SpiBus::read` (src/spi.rs, lines 296-316): block read via
`CMD_DMA_EXT_READ`; polls a 3-byte response (bounded, 10 attempts) for
the opcode echo, then transfers the data buffer. -/
def readBlock (dev : Nat → Nat) (bus : SpiBus) (S : Nat) (dataLen : Nat)
    (address count : Nat) (s : BusState) :
    Except SpiError (List Nat) × BusState :=
  let cmd : SpiCmd := .CmdDmaExtRead
  let (_, s1) := command dev bus S cmd address 0 count false s
  let response : List Nat := List.replicate (sizes.RESPONSE + sizes.DATA_START) 0
  let (response, s2) := readPoll dev response 10 s1
  if response.getD 0 0 == cmd.toU8 then
    let (data, s3) := transfer dev (List.replicate dataLen 0) s2
    (.ok data, s3)
  else
    (.error (.ReadDataError cmd.toU8
      (spiCommandErrorFromU8 (response.getD 1 0))), s2)

/-- Method `SpiBus::read_data` (src/spi.rs, lines 282-293): wraps
`read` with the command-buffer size picked by `crc_disabled`. -/
def read_data (dev : Nat → Nat) (bus : SpiBus) (dataLen : Nat)
    (address count : Nat) (s : BusState) :
    Except SpiError (List Nat) × BusState :=
  match bus.crc_disabled with
  | true => readBlock dev bus sizes.TYPE_C dataLen address count s
  | false => readBlock dev bus sizes.TYPE_C_CRC dataLen address count s

/-- Method `SpiBus::write_reg` (src/spi.rs, lines 336-364): clockless
`CMD_INTERNAL_WRITE` at or below the `0x30` threshold, else
`CMD_SINGLE_WRITE`; validates the echoed opcode and status nibble. -/
def write_reg (dev : Nat → Nat) (bus : SpiBus) (S : Nat)
    (address data response_start : Nat) (s : BusState) :
    Except SpiError Unit × BusState :=
  let (cmd, clockless) : SpiCmd × Bool :=
    if address ≤ 0x30 then (.CmdInternalWrite, true) else (.CmdSingleWrite, false)
  let (buf, s') := command dev bus S cmd address data 0 clockless s
  if buf.getD response_start 0 ≠ cmd.toU8
      ∨ (buf.getD (response_start + 1) 0) &&& 0x0f ≠ 0 then
    (.error (.WriteRegisterError cmd.toU8
        (spiCommandErrorFromU8 ((buf.getD (response_start + 1) 0) &&& 0x0f))),
     s')
  else (.ok (), s')

/-- Method `SpiBus::write_register` (src/spi.rs, lines 320-333): wraps
`write_reg` with the size and response offset picked by `crc_disabled`. -/
def write_register (dev : Nat → Nat) (bus : SpiBus) (address data : Nat)
    (s : BusState) : Except SpiError Unit × BusState :=
  match bus.crc_disabled with
  | true => write_reg dev bus (sizes.TYPE_D + sizes.RESPONSE) address data 8 s
  | false => write_reg dev bus (sizes.TYPE_D_CRC + sizes.RESPONSE) address data 9 s

/-- The `retry_while!(response[0] != 0xc3, retries = 10, ...)` loop of
`SpiBus::write` (src/spi.rs, line 403): while the byte is not the
completion mark `0xc3` and retries remain, transfer one byte. -/
def writePoll (dev : Nat → Nat) (b : Nat) (r : Nat) (s : BusState) :
    Nat × BusState :=
  match r with
  | 0 => (b, s)
  | r' + 1 =>
      if b ≠ 0xc3 then
        let (resp, s') := transfer dev [b] s
        writePoll dev (resp.getD 0 0) r' s'
      else (b, s)

/-- Method `SpiBus::write` (src/spi.rs, lines 387-410): block write via
`CMD_DMA_EXT_WRITE`.  After the opcode echo, sends the data mark
`SpiPacket::Last = 0xf3` and the payload, then polls (bounded, 10
attempts) for the completion byte `0xc3` — and returns `Ok` whether or
not it was seen. -/
def writeBlock (dev : Nat → Nat) (bus : SpiBus) (S : Nat)
    (data : List Nat) (address count : Nat) (s : BusState) :
    Except SpiError Unit × BusState :=
  let cmd : SpiCmd := .CmdDmaExtWrite
  let data_mark : Nat := 0xf3
  let (_, s1) := command dev bus S cmd address 0 count false s
  let (response, s2) := transfer dev (List.replicate sizes.RESPONSE 0) s1
  if response.getD 0 0 == cmd.toU8 then
    let (_, s3) := transfer dev [data_mark] s2
    let (_, s4) := transfer dev data s3
    let (_, s5) := writePoll dev 0 10 s4
    (.ok (), s5)
  else
    (.error (.WriteDataError cmd.toU8
      (spiCommandErrorFromU8 (response.getD 1 0))), s2)

/-- Method `SpiBus::write_data` (src/spi.rs, lines 368-384): wraps
`write` with the command-buffer size picked by `crc_disabled`. -/
def write_data (dev : Nat → Nat) (bus : SpiBus) (data : List Nat)
    (address count : Nat) (s : BusState) :
    Except SpiError Unit × BusState :=
  match bus.crc_disabled with
  | true => writeBlock dev bus sizes.TYPE_C data address count s
  | false => writeBlock dev bus sizes.TYPE_C_CRC data address count s

/-! ## Error taxonomy (src/error.rs) and HIF layer (src/hif.rs) -/

/-- Enum `HifError` (src/error.rs, lines 58-64). -/
inductive HifError where
  | SizeMismatch (requested received : Nat)
  | AddressMismatch (requested received : Nat)
deriving DecidableEq, Repr

/-- Enum `Error` (src/error.rs, lines 159-168), with the variant the HIF
core never constructs (`ScanError`) omitted. -/
inductive Error where
  | HifError (e : Atwinc.HifError)
  | SpiError (e : Atwinc.SpiError)
  | PinStateError
deriving DecidableEq, Repr

/-- Conversion `From<SpiError> for Error` (src/error.rs, lines 181-188). -/
def Error.fromSpi : Atwinc.SpiError → Error
  | .PinStateError => .PinStateError
  | e => .SpiError e

/-- Constant `HIF_HEADER_SIZE` (src/hif.rs, line 78). -/
def HIF_HEADER_SIZE : Nat := 8

/-- Struct `HifHeader` (src/hif.rs, lines 80-85): `gid`, `op` are `u8`,
`length` is `u16`. -/
structure HifHeader where
  gid : Nat
  op : Nat
  length : Nat
deriving DecidableEq, Repr

/-- Constructor `HifHeader::new` (src/hif.rs, lines 90-96): stores the
payload length plus the 8-byte header size (`u16` addition). -/
def HifHeader.new (gid op length : Nat) : HifHeader :=
  ⟨gid, op, (length + HIF_HEADER_SIZE) % 65536⟩

/-- Conversion `From<HifHeader> for [u8; HIF_HEADER_SIZE]` (src/hif.rs,
lines 99-114): the 8-byte buffer form, length little-endian. -/
def HifHeader.toBytes (h : HifHeader) : List Nat :=
  [h.gid % 256, h.op % 256, h.length % 256, (h.length >>> 8) % 256, 0, 0, 0, 0]

/-- Conversion `From<HifHeader> for u32` (src/hif.rs, lines 116-127):
the packed register form, via `combine_bytes!`. -/
def HifHeader.toU32 (h : HifHeader) : Nat :=
  combine_bytes [(h.length >>> 8) % 256, h.length % 256, h.op % 256, h.gid % 256]

/-- Conversion `From<[u8; 4]> for HifHeader` (src/hif.rs, lines
129-139): parses `length` as `(array[2] << 8) | array[3]`. -/
def HifHeader.ofBytes4 (array : List Nat) : HifHeader :=
  ⟨array.getD 0 0, array.getD 1 0,
   (((array.getD 2 0) <<< 8) ||| array.getD 3 0) % 65536⟩

/-- Struct `HifContext` (src/hif.rs, lines 141-145). -/
structure HifContext where
  read_addr : Nat
  read_size : Nat
  read_done : Bool
deriving DecidableEq, Repr

/-- Constructor `HifContext::default` (src/hif.rs, lines 147-155). -/
def HifContext.default : HifContext := ⟨0, 0, true⟩

/-- The `group_ids` module (src/hif.rs, lines 12-17). -/
def group_ids.WIFI : Nat := 1

/-- Group id of the IP/socket group (src/hif.rs, line 15). -/
def group_ids.IP : Nat := 2

/-- Enum `WifiCommand` (src/hif.rs, lines 19-76): the closed WiFi-group
opcode table with the `Invalid` catch-all. -/
inductive WifiCommand where
  | ReqRestart | ReqSetMacAddress | ReqCurrentRssi | RespCurrentRssi
  | ReqGetConnInfo | RespConnInfo | ReqSetDeviceName | ReqStartProvisionMode
  | RespProvisionInfo | ReqStopProvisionMode | ReqSetSysTime
  | ReqEnableSntpClient | ReqDisableSntpClient | ReqCustInfoElement
  | ReqScan | RespScanDone | ReqScanResult | RespScanResult
  | ReqSetScanOption | ReqSetScanRegion | ReqSetPowerProfile | ReqSetTxPower
  | ReqSetBatteryVoltage | ReqSetEnableLogs | ReqGetSysTime | RespGetSysTime
  | ReqSendEthernetPacket | RespEthernetRxPacket | ReqSetMacMcast
  | ReqGetPrng | RespGetPrng | ReqScanSsidList | ReqSetGains | ReqPassiveScan
  | RaxConfigAl | ReqConnect | ReqDefaultConnect | RespConnect | ReqDisconnect
  | RespConStateChanged | ReqSleep | ReqWpsScan | ReqWps | ReqDisableWps
  | ReqDhcpConf | RespIpConfigured | RespIpConflict | ReqEnableMonitoring
  | ReqDisableMonitoring | RespWifiRxPacket | ReqSendWifiPacket | ReqLsnInt
  | ReqDoze | Invalid
deriving DecidableEq, Repr

/-- Discriminants of `WifiCommand` (src/hif.rs, lines 22-75; `Invalid`
takes the next implicit value, 59). -/
def WifiCommand.toU8 : WifiCommand → Nat
  | .ReqRestart => 1
  | .ReqSetMacAddress => 2
  | .ReqCurrentRssi => 3
  | .RespCurrentRssi => 4
  | .ReqGetConnInfo => 5
  | .RespConnInfo => 6
  | .ReqSetDeviceName => 7
  | .ReqStartProvisionMode => 8
  | .RespProvisionInfo => 9
  | .ReqStopProvisionMode => 10
  | .ReqSetSysTime => 11
  | .ReqEnableSntpClient => 12
  | .ReqDisableSntpClient => 13
  | .ReqCustInfoElement => 15
  | .ReqScan => 16
  | .RespScanDone => 17
  | .ReqScanResult => 18
  | .RespScanResult => 19
  | .ReqSetScanOption => 20
  | .ReqSetScanRegion => 21
  | .ReqSetPowerProfile => 22
  | .ReqSetTxPower => 23
  | .ReqSetBatteryVoltage => 24
  | .ReqSetEnableLogs => 25
  | .ReqGetSysTime => 26
  | .RespGetSysTime => 27
  | .ReqSendEthernetPacket => 28
  | .RespEthernetRxPacket => 29
  | .ReqSetMacMcast => 30
  | .ReqGetPrng => 31
  | .RespGetPrng => 32
  | .ReqScanSsidList => 33
  | .ReqSetGains => 34
  | .ReqPassiveScan => 35
  | .RaxConfigAl => 36
  | .ReqConnect => 40
  | .ReqDefaultConnect => 41
  | .RespConnect => 42
  | .ReqDisconnect => 43
  | .RespConStateChanged => 44
  | .ReqSleep => 45
  | .ReqWpsScan => 46
  | .ReqWps => 47
  | .ReqDisableWps => 49
  | .ReqDhcpConf => 50
  | .RespIpConfigured => 51
  | .RespIpConflict => 52
  | .ReqEnableMonitoring => 53
  | .ReqDisableMonitoring => 54
  | .RespWifiRxPacket => 55
  | .ReqSendWifiPacket => 56
  | .ReqLsnInt => 57
  | .ReqDoze => 58
  | .Invalid => 59

/-- All `WifiCommand` variants in declaration order, as matched by the
guards the `FromByte` derive generates (src/from-u8-derive/src/lib.rs,
lines 14-33). -/
def WifiCommand.all : List WifiCommand :=
  [.ReqRestart, .ReqSetMacAddress, .ReqCurrentRssi, .RespCurrentRssi,
   .ReqGetConnInfo, .RespConnInfo, .ReqSetDeviceName, .ReqStartProvisionMode,
   .RespProvisionInfo, .ReqStopProvisionMode, .ReqSetSysTime,
   .ReqEnableSntpClient, .ReqDisableSntpClient, .ReqCustInfoElement,
   .ReqScan, .RespScanDone, .ReqScanResult, .RespScanResult,
   .ReqSetScanOption, .ReqSetScanRegion, .ReqSetPowerProfile, .ReqSetTxPower,
   .ReqSetBatteryVoltage, .ReqSetEnableLogs, .ReqGetSysTime, .RespGetSysTime,
   .ReqSendEthernetPacket, .RespEthernetRxPacket, .ReqSetMacMcast,
   .ReqGetPrng, .RespGetPrng, .ReqScanSsidList, .ReqSetGains, .ReqPassiveScan,
   .RaxConfigAl, .ReqConnect, .ReqDefaultConnect, .RespConnect, .ReqDisconnect,
   .RespConStateChanged, .ReqSleep, .ReqWpsScan, .ReqWps, .ReqDisableWps,
   .ReqDhcpConf, .RespIpConfigured, .RespIpConflict, .ReqEnableMonitoring,
   .ReqDisableMonitoring, .RespWifiRxPacket, .ReqSendWifiPacket, .ReqLsnInt,
   .ReqDoze, .Invalid]

/-- Conversion `From<u8> for WifiCommand`, generated by the `FromByte`
derive (src/from-u8-derive/src/lib.rs, lines 14-33): the first variant
whose discriminant equals the byte, else `Invalid`. -/
def WifiCommand.fromU8 (value : Nat) : WifiCommand :=
  match WifiCommand.all.find? (fun v => v.toU8 == value) with
  | some v => v
  | none => .Invalid

/-- The discriminants explicitly declared on `WifiCommand`
(src/hif.rs, lines 22-74), i.e. every variant's byte except the
implicit one of the `Invalid` catch-all. -/
def WifiCommand.declaredDiscriminants : List Nat :=
  (WifiCommand.all.filter (fun v => v ≠ .Invalid)).map WifiCommand.toU8

/-- Enum `SocketCommand` (src/socket.rs, lines 8-45) with the `Invalid`
catch-all (implicit discriminant 0x56). -/
inductive SocketCommand where
  | Bind | Listen | Accept | Connect | Send | Recv | Sendto | Recvfrom
  | Close | DnsResolve | SslConnect | SslSend | SslRecv | SslClose
  | SetSocketOption | SslCreate | SslSetSockOpt | Ping | SslSetCsList
  | SslBind | SslExpCheck | Invalid
deriving DecidableEq, Repr

/-- Discriminants of `SocketCommand` (src/socket.rs, lines 8-45). -/
def SocketCommand.toU8 : SocketCommand → Nat
  | .Bind => 0x41
  | .Listen => 0x42
  | .Accept => 0x43
  | .Connect => 0x44
  | .Send => 0x45
  | .Recv => 0x46
  | .Sendto => 0x47
  | .Recvfrom => 0x48
  | .Close => 0x49
  | .DnsResolve => 0x4a
  | .SslConnect => 0x4b
  | .SslSend => 0x4c
  | .SslRecv => 0x4d
  | .SslClose => 0x4e
  | .SetSocketOption => 0x4f
  | .SslCreate => 0x50
  | .SslSetSockOpt => 0x51
  | .Ping => 0x52
  | .SslSetCsList => 0x53
  | .SslBind => 0x54
  | .SslExpCheck => 0x55
  | .Invalid => 0x56

/-- All `SocketCommand` variants in declaration order (for the
`FromByte` derive). -/
def SocketCommand.all : List SocketCommand :=
  [.Bind, .Listen, .Accept, .Connect, .Send, .Recv, .Sendto, .Recvfrom,
   .Close, .DnsResolve, .SslConnect, .SslSend, .SslRecv, .SslClose,
   .SetSocketOption, .SslCreate, .SslSetSockOpt, .Ping, .SslSetCsList,
   .SslBind, .SslExpCheck, .Invalid]

/-- Conversion `From<u8> for SocketCommand`, generated by the
`FromByte` derive. -/
def SocketCommand.fromU8 (value : Nat) : SocketCommand :=
  match SocketCommand.all.find? (fun v => v.toU8 == value) with
  | some v => v
  | none => .Invalid

/-- Enum `hif::Command` (src/hif.rs, lines 157-172). -/
inductive Command where
  | WifiCommand (c : Atwinc.WifiCommand)
  | SocketCommand (c : Atwinc.SocketCommand)
deriving DecidableEq, Repr

/-! ## Driver state (src/lib.rs) and payload decoders (src/wifi.rs) -/

/-- Enum `Status` (src/lib.rs, lines 55-81): the caller-visible
connection status. -/
inductive Status where
  | Idle | NoSsidAvail | ScanComplete | Connected | ConnectionFailed
  | ConnectionLost | Disconnected | ApListening | ApConnected | ApFailed
  | Provisioning | ProvisioningFailed
deriving DecidableEq, Repr

/-- Enum `Mode` (src/lib.rs, lines 84-89): `_Reset`, `Station`
(default), `_Provisioning`, `_Ap`, with the Rust underscore prefixes
dropped. -/
inductive Mode where
  | Reset | Station | Provisioning | Ap
deriving DecidableEq, Repr

/-- Enum `ConnectionState` (src/wifi.rs, lines 366-370). -/
inductive ConnectionState where
  | Connected | Disconnected | Undefined
deriving DecidableEq, Repr

/-- Conversion `From<u8> for ConnectionState` (src/wifi.rs, lines
372-381): 0 is `Connected`, 1 is `Disconnected`, anything else
`Undefined`. -/
def ConnectionState.fromU8 (code : Nat) : ConnectionState :=
  if code = 0 then .Connected
  else if code = 1 then .Disconnected
  else .Undefined

/-- Enum `StateChangeErrorCode` (src/wifi.rs, lines 343-350),
represented by its discriminant with 6 standing for `Invalid`
(`From<u8>`, lines 352-363). -/
def stateChangeErrorCodeFromU8 (code : Nat) : Nat :=
  if 1 ≤ code ∧ code ≤ 5 then code else 6

/-- Struct `StateChange` (src/wifi.rs, lines 383-386). -/
structure StateChange where
  current_state : ConnectionState
  error_code : Nat
deriving DecidableEq, Repr

/-- Conversion `From<[u8; 4]> for StateChange` (src/wifi.rs, lines
388-395). -/
def StateChange.ofBytes (data : List Nat) : StateChange :=
  ⟨ConnectionState.fromU8 (data.getD 0 0),
   stateChangeErrorCodeFromU8 (data.getD 1 0)⟩

/-- Struct `SystemTime` (src/wifi.rs, lines 541-556). -/
structure SystemTime where
  year : Nat
  month : Nat
  day : Nat
  hour : Nat
  minute : Nat
  second : Nat
deriving DecidableEq, Repr

/-- Conversion `From<[u8; 8]> for SystemTime` (src/wifi.rs, lines
558-570): the year is little-endian in the first two bytes. -/
def SystemTime.ofBytes8 (data : List Nat) : SystemTime :=
  ⟨(((data.getD 1 0) <<< 8) ||| data.getD 0 0) % 65536,
   data.getD 2 0, data.getD 3 0, data.getD 4 0, data.getD 5 0, data.getD 6 0⟩

/-- Struct `ScanResultCount` (src/wifi.rs, lines 438-445). -/
structure ScanResultCount where
  num_ap : Nat
  scan_state : Int
deriving DecidableEq, Repr

/-- Conversion `From<[u8; 4]> for ScanResultCount` (src/wifi.rs, lines
447-454). -/
def ScanResultCount.ofBytes4 (data : List Nat) : ScanResultCount :=
  ⟨data.getD 0 0, toI8 (data.getD 1 0)⟩

/-- Struct `ScanResult` (src/wifi.rs, lines 472-485). -/
structure ScanResult where
  index : Nat
  rssi : Int
  auth_type : Nat
  channel : Nat
  bssid : List Nat
  ssid : List Nat
deriving DecidableEq, Repr

/-- Conversion `From<[u8; 44]> for ScanResult` (src/wifi.rs, lines
487-502): bssid from bytes 4..10, ssid from bytes 10..43, rssi signed. -/
def ScanResult.ofBytes44 (data : List Nat) : ScanResult :=
  ⟨data.getD 0 0, toI8 (data.getD 1 0), data.getD 2 0, data.getD 3 0,
   (data.drop 4).take 6, (data.drop 10).take 33⟩

/-- Struct `ConnectionInfo` (src/wifi.rs, lines 577-589). -/
structure ConnectionInfo where
  ssid : List Nat
  security_type : Nat
  ip_address : List Nat
  mac_address : List Nat
  rssi : Int
deriving DecidableEq, Repr

/-- Conversion `From<&[u8]> for ConnectionInfo` (src/wifi.rs, lines
591-607): ssid bytes 0..33, security byte 33, ip bytes 34..38, mac
bytes 38..44, rssi signed byte 44 (`MAX_SSID_LEN = 33`). -/
def ConnectionInfo.ofSlice (slice : List Nat) : ConnectionInfo :=
  ⟨slice.take 33, slice.getD 33 0, (slice.drop 34).take 4,
   (slice.drop 38).take 6, toI8 (slice.getD 44 0)⟩

/-- Struct `State` (src/lib.rs, lines 92-103): the externally visible
driver state updated by the HIF callbacks.  `FirmwareVersion` and
`MacAddress` (src/types.rs, lines 7-9) are byte lists. -/
structure State where
  firmware_version : Option (List Nat)
  mac_address : Option (List Nat)
  status : Status
  mode : Mode
  dhcp : Bool
  connection_info : Option ConnectionInfo
  scan_in_progress : Bool
  num_ap : Nat
  scan_result : Option ScanResult
  system_time : Option SystemTime
deriving DecidableEq, Repr

/-- Constructor `State::default` (src/lib.rs, lines 106-119). -/
def State.default : State :=
  ⟨none, none, .Idle, .Station, true, none, false, 0, none, none⟩

/-- Method `State::set_status` (src/lib.rs, lines 129-131). -/
def State.set_status (s : State) (status : Status) : State :=
  { s with status := status }

/-! ## The HostInterface engine (src/hif.rs, lines 177-503)

Each method threads the `HifContext`, the bus state and (where the
source takes it) the driver `State`. -/

-- Register addresses used by the HIF engine (src/registers.rs).
namespace registers
def WIFI_HOST_RCV_CTRL_0 : Nat := 0x1070
def WIFI_HOST_RCV_CTRL_1 : Nat := 0x1084
end registers

/-- Method `HostInterface::finish_reception` (src/hif.rs, lines
331-340): sets `read_done`, then reads and writes back
`WIFI_HOST_RCV_CTRL_0` with bit 1 set. -/
def finish_reception (dev : Nat → Nat) (bus : SpiBus) (ctx : HifContext)
    (s : BusState) : Except Error Unit × HifContext × BusState :=
  let ctx := { ctx with read_done := true }
  match read_register dev bus registers.WIFI_HOST_RCV_CTRL_0 s with
  | (.error e, s') => (.error (Error.fromSpi e), ctx, s')
  | (.ok value, s') =>
      match write_register dev bus registers.WIFI_HOST_RCV_CTRL_0 (value ||| 2) s' with
      | (.error e, s'') => (.error (Error.fromSpi e), ctx, s'')
      | (.ok _, s'') => (.ok (), ctx, s'')

/-- Method `HostInterface::receive` (src/hif.rs, lines 308-328):
bounds-checks the requested length against `ctx.read_size`
(`buffer.len() as u32`), performs the block read, and finishes the
reception when the read reaches the end of the declared packet
(`u32` wrapping arithmetic).  Returns the bytes read. -/
def receive (dev : Nat → Nat) (bus : SpiBus) (ctx : HifContext)
    (address bufLen : Nat) (s : BusState) :
    Except Error (List Nat) × HifContext × BusState :=
  if bufLen % 4294967296 > ctx.read_size then
    (.error (.HifError (.SizeMismatch bufLen ctx.read_size)), ctx, s)
  else
    match read_data dev bus bufLen address (bufLen % 4294967296) s with
    | (.error e, s') => (.error (Error.fromSpi e), ctx, s')
    | (.ok data, s') =>
        if sub32 (add32 ctx.read_addr ctx.read_size) (add32 address bufLen) = 0 then
          match finish_reception dev bus ctx s' with
          | (.error e, ctx', s'') => (.error e, ctx', s'')
          | (.ok _, ctx', s'') => (.ok data, ctx', s'')
        else (.ok data, ctx, s')

/-- Method `HostInterface::wifi_callback` (src/hif.rs, lines 402-476):
dispatch over the WiFi opcode; handled response opcodes read a
fixed-size payload through `receive` and update the driver state;
every other variant (including `Invalid`) is a no-op. -/
def wifi_callback (dev : Nat → Nat) (bus : SpiBus) (ctx : HifContext)
    (opcode : WifiCommand) (data_size address : Nat) (state : State)
    (s : BusState) : Except Error Unit × HifContext × BusState × State :=
  match opcode with
  | .RespConStateChanged =>
      match receive dev bus ctx address 4 s with
      | (.error e, ctx', s') => (.error e, ctx', s', state)
      | (.ok data_buf, ctx', s') =>
          let state_change := StateChange.ofBytes data_buf
          match state_change.current_state with
          | .Connected =>
              match state.mode with
              | .Station => (.ok (), ctx', s', state.set_status .Connected)
              | .Ap => (.ok (), ctx', s', state.set_status .ApConnected)
              | _ => (.ok (), ctx', s', state)
          | .Disconnected =>
              match state.mode with
              | .Station => (.ok (), ctx', s', state.set_status .Disconnected)
              | .Ap => (.ok (), ctx', s', state.set_status .ApListening)
              | _ => (.ok (), ctx', s', state)
          | .Undefined => (.ok (), ctx', s', state)
  | .RespGetSysTime =>
      match receive dev bus ctx address 8 s with
      | (.error e, ctx', s') => (.error e, ctx', s', state)
      | (.ok data_buf, ctx', s') =>
          let system_time := SystemTime.ofBytes8 data_buf
          if system_time.year > 0 then
            (.ok (), ctx', s', { state with system_time := some system_time })
          else (.ok (), ctx', s', state)
  | .RespConnInfo =>
      match receive dev bus ctx address 48 s with
      | (.error e, ctx', s') => (.error e, ctx', s', state)
      | (.ok data_buf, ctx', s') =>
          (.ok (), ctx', s',
           { state with connection_info := some (ConnectionInfo.ofSlice data_buf) })
  | .ReqDhcpConf => (.ok (), ctx, s, state)
  | .ReqWps => (.ok (), ctx, s, state)
  | .RespIpConflict => (.ok (), ctx, s, state)
  | .RespScanDone =>
      match receive dev bus ctx address 4 s with
      | (.error e, ctx', s') => (.error e, ctx', s', state)
      | (.ok data_buf, ctx', s') =>
          let scan_count := ScanResultCount.ofBytes4 data_buf
          (.ok (), ctx', s',
           { state with num_ap := scan_count.num_ap, scan_in_progress := false })
  | .RespScanResult =>
      match receive dev bus ctx address 44 s with
      | (.error e, ctx', s') => (.error e, ctx', s', state)
      | (.ok data_buf, ctx', s') =>
          (.ok (), ctx', s',
           { state with scan_result := some (ScanResult.ofBytes44 data_buf) })
  | .RespCurrentRssi => (.ok (), ctx, s, state)
  | _ => (.ok (), ctx, s, state)

/-- Method `HostInterface::ip_callback` (src/hif.rs, lines 478-502):
every arm of the match is an empty block, so the call succeeds and
changes nothing regardless of the socket opcode. -/
def ip_callback (dev : Nat → Nat) (bus : SpiBus) (ctx : HifContext)
    (opcode : SocketCommand) (data_size address : Nat) (state : State)
    (s : BusState) : Except Error Unit × HifContext × BusState × State :=
  (.ok (), ctx, s, state)

/-- The tail of `HostInterface::isr` (src/hif.rs, lines 300-304): call
`finish_reception` when the context still marks a read in progress,
then report the recognized command. -/
def isrFinish (dev : Nat → Nat) (bus : SpiBus) (cmd : Option Command)
    (ctx : HifContext) (state : State) (s : BusState) :
    Except Error (Option Command) × HifContext × BusState × State :=
  if !ctx.read_done then
    match finish_reception dev bus ctx s with
    | (.error e, ctx', s') => (.error e, ctx', s', state)
    | (.ok _, ctx', s') => (.ok cmd, ctx', s', state)
  else (.ok cmd, ctx, s, state)

/-- Method `HostInterface::isr` (src/hif.rs, lines 252-305): the host
interface interrupt service routine.  Reads `WIFI_HOST_RCV_CTRL_0`;
when the new-data bit is set, clears it, marks a read in progress,
extracts the declared size from bits 2..13, reads the source address
and the 4-byte header, dispatches by group id, and finishes the
reception if the dispatch has not already done so. -/
def isr (dev : Nat → Nat) (bus : SpiBus) (ctx : HifContext)
    (state : State) (s : BusState) :
    Except Error (Option Command) × HifContext × BusState × State :=
  match read_register dev bus registers.WIFI_HOST_RCV_CTRL_0 s with
  | (.error e, s1) => (.error (Error.fromSpi e), ctx, s1, state)
  | (.ok reg_value, s1) =>
    if reg_value &&& 0x1 ≠ 0 then
      let reg_value := reg_value &&& 0xfffffffe
      match write_register dev bus registers.WIFI_HOST_RCV_CTRL_0 reg_value s1 with
      | (.error e, s2) => (.error (Error.fromSpi e), ctx, s2, state)
      | (.ok _, s2) =>
        let ctx := { ctx with read_done := false }
        let size := (reg_value >>> 2) &&& 0xfff
        if size > 0 then
          match read_register dev bus registers.WIFI_HOST_RCV_CTRL_1 s2 with
          | (.error e, s3) => (.error (Error.fromSpi e), ctx, s3, state)
          | (.ok address, s3) =>
            let ctx := { ctx with read_addr := address, read_size := size }
            match read_data dev bus 4 address 4 s3 with
            | (.error e, s4) => (.error (Error.fromSpi e), ctx, s4, state)
            | (.ok header_buf, s4) =>
              let header := HifHeader.ofBytes4 header_buf
              if header.gid = group_ids.WIFI then
                match wifi_callback dev bus ctx (WifiCommand.fromU8 header.op)
                    (sub16 header.length HIF_HEADER_SIZE)
                    (add32 address HIF_HEADER_SIZE) state s4 with
                | (.error e, ctx', s5, state') => (.error e, ctx', s5, state')
                | (.ok _, ctx', s5, state') =>
                    isrFinish dev bus
                      (some (.WifiCommand (WifiCommand.fromU8 header.op)))
                      ctx' state' s5
              else if header.gid = group_ids.IP then
                match ip_callback dev bus ctx (SocketCommand.fromU8 header.op)
                    (sub16 header.length HIF_HEADER_SIZE)
                    (add32 address HIF_HEADER_SIZE) state s4 with
                | (.error e, ctx', s5, state') => (.error e, ctx', s5, state')
                | (.ok _, ctx', s5, state') =>
                    isrFinish dev bus
                      (some (.SocketCommand (SocketCommand.fromU8 header.op)))
                      ctx' state' s5
              else
                isrFinish dev bus none ctx state s4
        else
          isrFinish dev bus none ctx state s2
    else (.ok none, ctx, s1, state)

/-! ## Theorems -/

/-- C1: HIF header round-trip.  The claim fails on the code: for
(group_id, opcode, payload_len) = (0, 0, 1), `HifHeader::new` stores
length 9, the byte-buffer form carries it little-endian
(`[0, 0, 9, 0, ...]`), but `From<[u8; 4]>` re-parses those bytes
big-endian, yielding length `0x0900 = 2304`, not `payload_len + 8 = 9`.
The serializer and parser are not inverses. -/
theorem hifHeader_roundtrip_length_bug :
    (HifHeader.new 0 0 1).toBytes.take 4 = [0, 0, 9, 0]
      ∧ (HifHeader.ofBytes4 ((HifHeader.new 0 0 1).toBytes.take 4)).length = 2304
      ∧ (HifHeader.new 0 0 1).length = 9 := by
  refine ⟨rfl, rfl, rfl⟩

/-- C3 counterexample: `read_register(0x31)` selects `CMD_INTERNAL_READ`
(opcode byte `0xc4` is the first byte clocked out), not
`CMD_SINGLE_READ` (`0xca`) as claimed. -/
theorem read_register_0x31_selects_internal_read :
    readRegCmd 0x31 = (.CmdInternalRead, true)
      ∧ ((read_register (fun _ => 0) ⟨false, false⟩ 0x31 ⟨0, []⟩).2.trace.getD 0 []).getD 0 0
          = SpiCmd.CmdInternalRead.toU8
      ∧ SpiCmd.CmdInternalRead.toU8 ≠ SpiCmd.CmdSingleRead.toU8 := by
  refine ⟨rfl, rfl, by decide⟩

/-- C3 amended: `read_register(0x30)` and `read_register(0x31)` both
select `CMD_INTERNAL_READ`; the clockless read threshold is `0xff`:
every address at or below `0xff` selects `CMD_INTERNAL_READ`
(clockless) and every larger address selects `CMD_SINGLE_READ`
(so `read_register(0x100)` is the boundary's first single read). -/
theorem read_register_clockless_threshold :
    readRegCmd 0x30 = (.CmdInternalRead, true)
      ∧ readRegCmd 0x31 = (.CmdInternalRead, true)
      ∧ readRegCmd 0x100 = (.CmdSingleRead, false)
      ∧ (∀ address : Nat, address ≤ 0xff → readRegCmd address = (.CmdInternalRead, true))
      ∧ (∀ address : Nat, 0xff < address → readRegCmd address = (.CmdSingleRead, false)) := by
  refine ⟨rfl, rfl, rfl, ?_, ?_⟩
  · intro address h
    simp [readRegCmd, h]
  · intro address h
    simp [readRegCmd, Nat.not_le.mpr h]

/-- C3 witness: the amended theorem applied at the boundary addresses
`0xff` and `0x100`. -/
theorem read_register_clockless_threshold_witness :
    readRegCmd 0xff = (.CmdInternalRead, true)
      ∧ readRegCmd 0x100 = (.CmdSingleRead, false) :=
  ⟨read_register_clockless_threshold.2.2.2.1 0xff (by decide),
   read_register_clockless_threshold.2.2.2.2 0x100 (by decide)⟩

/-- C6: when the requested buffer length exceeds `ctx.read_size`,
`receive` fails with `HifError::SizeMismatch(requested, received)` and
performs no SPI transport operation: the bus state (including the
transfer trace) and the `HifContext` are returned unchanged. -/
theorem receive_size_mismatch (dev : Nat → Nat) (bus : SpiBus)
    (ctx : HifContext) (address bufLen : Nat) (s : BusState)
    (hlt : bufLen < 4294967296) (hgt : bufLen > ctx.read_size) :
    receive dev bus ctx address bufLen s
      = (.error (.HifError (.SizeMismatch bufLen ctx.read_size)), ctx, s) := by
  have : bufLen % 4294967296 = bufLen := Nat.mod_eq_of_lt hlt
  simp [receive, this, hgt]

/-- C6 witness: a 20-byte request against `read_size = 10` yields
`SizeMismatch(20, 10)` with bus and context untouched. -/
theorem receive_size_mismatch_witness :
    receive (fun _ => 0) ⟨false, false⟩ ⟨0, 10, true⟩ 0 20 ⟨0, []⟩
      = (.error (.HifError (.SizeMismatch 20 10)), ⟨0, 10, true⟩, (⟨0, []⟩ : BusState)) :=
  receive_size_mismatch (fun _ => 0) ⟨false, false⟩ ⟨0, 10, true⟩ 0 20 ⟨0, []⟩
    (by decide) (by decide)

set_option maxRecDepth 16384 in
/-- C9: every byte that is not a declared `WifiCommand` discriminant
converts to the `Invalid` variant, and dispatching `Invalid` through
`wifi_callback` is a total no-op: it returns `Ok` and leaves the
context, the SPI bus (trace included) and the driver state untouched. -/
theorem wifi_unknown_opcode_safety :
    (∀ b : Nat, b < 256 → b ∉ WifiCommand.declaredDiscriminants →
        WifiCommand.fromU8 b = .Invalid)
      ∧ ∀ (dev : Nat → Nat) (bus : SpiBus) (ctx : HifContext)
          (data_size address : Nat) (state : State) (s : BusState),
          wifi_callback dev bus ctx .Invalid data_size address state s
            = (.ok (), ctx, s, state) := by
  constructor
  · decide
  · intro dev bus ctx data_size address state s
    rfl

/-- C9 witness: byte `0x00` is not a declared discriminant and decodes
to `Invalid`. -/
theorem wifi_unknown_opcode_safety_witness :
    WifiCommand.fromU8 0 = .Invalid :=
  wifi_unknown_opcode_safety.1 0 (by decide) (by decide)

/-- C8: frame condition on the connection status.  For every WiFi
opcode other than `RespConStateChanged`, a successful `wifi_callback`
leaves `state.status` unchanged, and a successful `ip_callback` leaves
it unchanged for every socket opcode. -/
theorem connection_status_frame (dev : Nat → Nat) (bus : SpiBus)
    (ctx : HifContext) (data_size address : Nat) (state : State)
    (s : BusState) :
    (∀ op : WifiCommand, op ≠ .RespConStateChanged →
        (wifi_callback dev bus ctx op data_size address state s).1 = .ok () →
        ((wifi_callback dev bus ctx op data_size address state s).2.2.2).status
          = state.status)
      ∧ ∀ sc : SocketCommand,
          (ip_callback dev bus ctx sc data_size address state s).1 = .ok () →
          ((ip_callback dev bus ctx sc data_size address state s).2.2.2).status
            = state.status := by
  constructor
  · intro op hop _hok
    cases op
    case RespConStateChanged => exact absurd rfl hop
    case RespGetSysTime =>
      rcases hr : receive dev bus ctx address 8 s with ⟨res, ctx', s'⟩
      cases res with
      | error e => simp [wifi_callback, hr]
      | ok data_buf =>
          simp only [wifi_callback, hr]
          split <;> rfl
    case RespConnInfo =>
      rcases hr : receive dev bus ctx address 48 s with ⟨res, ctx', s'⟩
      cases res with
      | error e => simp [wifi_callback, hr]
      | ok data_buf => simp [wifi_callback, hr]
    case RespScanDone =>
      rcases hr : receive dev bus ctx address 4 s with ⟨res, ctx', s'⟩
      cases res with
      | error e => simp [wifi_callback, hr]
      | ok data_buf => simp [wifi_callback, hr]
    case RespScanResult =>
      rcases hr : receive dev bus ctx address 44 s with ⟨res, ctx', s'⟩
      cases res with
      | error e => simp [wifi_callback, hr]
      | ok data_buf => simp [wifi_callback, hr]
    all_goals rfl
  · intro sc _hok
    rfl

/-- C8 witness: the frame condition applied to the no-op opcode
`ReqRestart` on the default state. -/
theorem connection_status_frame_witness :
    ((wifi_callback (fun _ => 0) ⟨false, false⟩ ⟨0, 0, true⟩ .ReqRestart 0 0
        State.default ⟨0, []⟩).2.2.2).status = State.default.status :=
  (connection_status_frame (fun _ => 0) ⟨false, false⟩ ⟨0, 0, true⟩ 0 0
      State.default ⟨0, []⟩).1 .ReqRestart (by decide) rfl

/-- C7: the connection-status state machine driven by
`RespConStateChanged`.  Whenever the 4-byte state-change payload `p`
is received, the decoded `Connected` state sets the status to
`Connected` in station mode and `ApConnected` in AP mode, the decoded
`Disconnected` state sets it to `Disconnected` in station mode and
`ApListening` in AP mode, and the decoded `Undefined` state leaves the
driver state unchanged. -/
theorem wifi_callback_con_state_machine (dev : Nat → Nat) (bus : SpiBus)
    (ctx : HifContext) (data_size address : Nat) (state : State)
    (s : BusState) (p : List Nat) (ctx' : HifContext) (s' : BusState)
    (hrecv : receive dev bus ctx address 4 s = (.ok p, ctx', s')) :
    ((StateChange.ofBytes p).current_state = .Connected →
        state.mode = .Station →
        wifi_callback dev bus ctx .RespConStateChanged data_size address state s
          = (.ok (), ctx', s', state.set_status .Connected))
      ∧ ((StateChange.ofBytes p).current_state = .Connected →
          state.mode = .Ap →
          wifi_callback dev bus ctx .RespConStateChanged data_size address state s
            = (.ok (), ctx', s', state.set_status .ApConnected))
      ∧ ((StateChange.ofBytes p).current_state = .Disconnected →
          state.mode = .Station →
          wifi_callback dev bus ctx .RespConStateChanged data_size address state s
            = (.ok (), ctx', s', state.set_status .Disconnected))
      ∧ ((StateChange.ofBytes p).current_state = .Disconnected →
          state.mode = .Ap →
          wifi_callback dev bus ctx .RespConStateChanged data_size address state s
            = (.ok (), ctx', s', state.set_status .ApListening))
      ∧ ((StateChange.ofBytes p).current_state = .Undefined →
          wifi_callback dev bus ctx .RespConStateChanged data_size address state s
            = (.ok (), ctx', s', state)) := by
  refine ⟨?_, ?_, ?_, ?_, ?_⟩ <;>
    first
      | (intro hcs hmode
         simp [wifi_callback, hrecv, hcs, hmode])
      | (intro hcs
         simp [wifi_callback, hrecv, hcs])

/-- C7 witness: a mocked device that echoes the `CMD_DMA_EXT_READ`
opcode and returns the payload `[0, 0, 0, 0]` (state `Connected`)
drives the default (station-mode) state to status `Connected`. -/
theorem wifi_callback_con_state_machine_witness :
    wifi_callback (fun i => if i == 7 then 0xc8 else 0) ⟨false, true⟩
        ⟨100, 16, false⟩ .RespConStateChanged 4 108 State.default ⟨0, []⟩
      = (.ok (), ⟨100, 16, false⟩,
         ⟨14, [[0xc8, 0, 0, 108, 0, 0, 4], [0, 0, 0], [0, 0, 0, 0]]⟩,
         State.default.set_status .Connected) :=
  (wifi_callback_con_state_machine (fun i => if i == 7 then 0xc8 else 0)
      ⟨false, true⟩ ⟨100, 16, false⟩ 4 108 State.default ⟨0, []⟩
      [0, 0, 0, 0] ⟨100, 16, false⟩
      ⟨14, [[0xc8, 0, 0, 108, 0, 0, 4], [0, 0, 0], [0, 0, 0, 0]]⟩
      rfl).1 rfl rfl

/-- Helper: the `match` of `SpiBus::command` only updates entries of
the buffer, so its length is preserved. -/
theorem commandFill_fst_length (cmd : SpiCmd) (a d sz : Nat) (c : Bool)
    (buf : List Nat) : ((commandFill cmd a d sz c buf).1).length = buf.length := by
  cases cmd <;> simp [commandFill]

/-- Helper: the buffer clocked out by `SpiBus::command` has the length
the caller allocated. -/
theorem commandWritten_length (bus : SpiBus) (bufLen : Nat) (cmd : SpiCmd)
    (a d sz : Nat) (c : Bool) :
    (commandWritten bus bufLen cmd a d sz c).length = bufLen := by
  have h2 := commandFill_fst_length cmd a d sz c (List.replicate bufLen 0)
  unfold commandWritten
  rcases hcf : commandFill cmd a d sz c (List.replicate bufLen 0) with ⟨buf, ci⟩
  rw [hcf] at h2
  simp at h2
  simp only []
  split <;> simp [h2]

/-- Helper: the bus-state effect of `SpiBus::command`: the position
advances by the buffer length and the written buffer is appended to
the trace. -/
theorem command_snd (dev : Nat → Nat) (bus : SpiBus) (bufLen : Nat)
    (cmd : SpiCmd) (a d sz : Nat) (c : Bool) (s : BusState) :
    (command dev bus bufLen cmd a d sz c s).2
      = ⟨s.pos + bufLen, s.trace ++ [commandWritten bus bufLen cmd a d sz c]⟩ := by
  simp [command, transfer, commandWritten_length]

/-- Helper: when none of the next `r` device bytes is the completion
mark `0xc3` and the loop enters with a non-`0xc3` byte, the
`retry_while` poll of `SpiBus::write` performs exactly `r` one-byte
transfers. -/
theorem writePoll_exhaust (dev : Nat → Nat) :
    ∀ (r : Nat) (b : Nat) (s : BusState), b ≠ 0xc3 →
      (∀ i, i < r → dev (s.pos + i) % 256 ≠ 0xc3) →
      ∃ polls, (writePoll dev b r s).2 = ⟨s.pos + r, s.trace ++ polls⟩
        ∧ polls.length = r ∧ ∀ p ∈ polls, p.length = 1 := by
  intro r
  induction r with
  | zero =>
      intro b s hb _h
      exact ⟨[], by simp [writePoll], rfl, by simp⟩
  | succ r ih =>
      intro b s hb h
      have hb0 : dev (s.pos) % 256 ≠ 0xc3 := by
        have := h 0 (Nat.succ_pos r)
        simpa using this
      have hrest : ∀ i, i < r → dev ((s.pos + 1) + i) % 256 ≠ 0xc3 := by
        intro i hi
        rw [show s.pos + 1 + i = s.pos + (i + 1) by omega]
        exact h (i + 1) (by omega)
      obtain ⟨polls, hp, hl, hone⟩ :=
        ih (dev (s.pos) % 256) ⟨s.pos + 1, s.trace ++ [[b]]⟩ hb0 hrest
      refine ⟨[b] :: polls, ?_, by simp [hl], ?_⟩
      · have : writePoll dev b (r + 1) s
            = writePoll dev (dev (s.pos) % 256) r ⟨s.pos + 1, s.trace ++ [[b]]⟩ := by
          simp [writePoll, hb, transfer]
        rw [this, hp]
        simp [BusState.mk.injEq]
        omega
      · intro p hp2
        rcases List.mem_cons.mp hp2 with h1 | h2
        · simp [h1]
        · exact hone p h2

/-- C4: in `SpiBus::write`, when the initial response echoes the
`CMD_DMA_EXT_WRITE` opcode (`0xc7`), the driver sends the data mark
`0xf3` and the payload, then polls exactly the bounded 10 attempts for
the completion byte `0xc3`; when none of the polled bytes is `0xc3`,
the retry budget is silently exhausted and the function still returns
`Ok`. -/
theorem write_retry_exhaustion_returns_ok (dev : Nat → Nat) (bus : SpiBus)
    (S : Nat) (data : List Nat) (address count : Nat) (s : BusState)
    (hresp : dev (s.pos + S) % 256 = 0xc7)
    (hpoll : ∀ i, i < 10 → dev (s.pos + S + 3 + data.length + i) % 256 ≠ 0xc3) :
    (writeBlock dev bus S data address count s).1 = .ok ()
      ∧ ∃ polls,
          (writeBlock dev bus S data address count s).2.trace
            = s.trace
                ++ [commandWritten bus S .CmdDmaExtWrite address 0 count false,
                    [0, 0], [0xf3], data]
                ++ polls
            ∧ polls.length = 10 ∧ ∀ p ∈ polls, p.length = 1 := by
  obtain ⟨polls, hp, hl, hone⟩ :=
    writePoll_exhaust dev 10 0
      ⟨s.pos + S + 2 + 1 + data.length,
       s.trace ++ [commandWritten bus S .CmdDmaExtWrite address 0 count false,
                   [0, 0], [0xf3], data]⟩
      (by decide)
      (by
        intro i hi
        have := hpoll i hi
        simpa [show s.pos + S + 2 + 1 + data.length = s.pos + S + 3 + data.length
          by omega] using this)
  constructor
  · simp only [writeBlock, command_snd, transfer, commandWritten_length]
    simp [hresp, SpiCmd.toU8, sizes.RESPONSE]
  · simp only [writeBlock, command_snd, transfer, commandWritten_length]
    simp [hresp, SpiCmd.toU8, sizes.RESPONSE]
    refine ⟨polls, ?_, hl, hone⟩
    rw [hp]
    simp

/-- C4 witness: a device that echoes `0xc7` after the 8-byte command
and then answers only zeros never produces the completion byte, yet
the write returns `Ok`. -/
theorem write_retry_exhaustion_returns_ok_witness :
    (writeBlock (fun i => if i == 8 then 0xc7 else 0) ⟨false, true⟩ 8
        [1, 2, 3] 5 3 ⟨0, []⟩).1 = .ok ()
      ∧ ∃ polls,
          (writeBlock (fun i => if i == 8 then 0xc7 else 0) ⟨false, true⟩ 8
              [1, 2, 3] 5 3 ⟨0, []⟩).2.trace
            = ([] : List (List Nat))
                ++ [commandWritten ⟨false, true⟩ 8 .CmdDmaExtWrite 5 0 3 false,
                    [0, 0], [0xf3], [1, 2, 3]]
                ++ polls
            ∧ polls.length = 10 ∧ ∀ p ∈ polls, p.length = 1 :=
  write_retry_exhaustion_returns_ok (fun i => if i == 8 then 0xc7 else 0)
    ⟨false, true⟩ 8 [1, 2, 3] 5 3 ⟨0, []⟩ (by decide) (by decide)

/-- Helper: the buffer handed back by `SpiBus::command` is the
device's next `bufLen` bytes. -/
theorem command_fst (dev : Nat → Nat) (bus : SpiBus) (bufLen : Nat)
    (cmd : SpiCmd) (a d sz : Nat) (c : Bool) (s : BusState) :
    (command dev bus bufLen cmd a d sz c s).1
      = (List.range bufLen).map (fun i => dev (s.pos + i) % 256) := by
  simp [command, transfer, commandWritten_length]

/-- Helper: indexing the device-byte buffer produced by a transfer. -/
theorem getD_map_range (f : Nat → Nat) {n i : Nat} (h : i < n) :
    ((List.range n).map f).getD i 0 = f i := by
  simp [List.getD_eq_getElem?_getD, List.getElem?_map, List.getElem?_range h]

/-- C5: `read_register` returns a value exactly when the response
passes all three checks — the byte at the response-start offset `rs`
(4 with CRC disabled, 5 with CRC active) echoes the opcode sent, the
status nibble of the following byte decodes to `NoError` (0), and the
byte at `rs + 2` has high nibble `0xf0`.  On success the result is the
little-endian u32 assembled from the four bytes following the marker
byte; on any mismatch it is `ReadRegisterError` carrying the opcode,
the decoded status nibble and the raw marker byte — never a value. -/
theorem read_register_validates_response (dev : Nat → Nat) (bus : SpiBus)
    (address : Nat) (s : BusState) (rs : Nat)
    (hrs : rs = if bus.crc_disabled then 4 else 5) :
    ((dev (s.pos + rs) % 256 = (readRegCmd address).1.toU8
        ∧ (dev (s.pos + (rs + 1)) % 256) &&& 0x0f = 0
        ∧ (dev (s.pos + (rs + 2)) % 256) &&& 0xf0 = 0xf0) →
      (read_register dev bus address s).1
        = .ok (combine_bytes_lsb
            [dev (s.pos + (rs + 3)) % 256, dev (s.pos + (rs + 4)) % 256,
             dev (s.pos + (rs + 5)) % 256, dev (s.pos + (rs + 6)) % 256]))
    ∧ (¬(dev (s.pos + rs) % 256 = (readRegCmd address).1.toU8
          ∧ (dev (s.pos + (rs + 1)) % 256) &&& 0x0f = 0
          ∧ (dev (s.pos + (rs + 2)) % 256) &&& 0xf0 = 0xf0) →
      (read_register dev bus address s).1
        = .error (.ReadRegisterError (readRegCmd address).1.toU8
            (spiCommandErrorFromU8 ((dev (s.pos + (rs + 1)) % 256) &&& 0x0f))
            (dev (s.pos + (rs + 2)) % 256))) := by
  obtain ⟨crc, crcd⟩ := bus
  rcases hcmd : readRegCmd address with ⟨cmd, clk⟩
  have hfalse : ∀ i : Nat, i < sizes.TYPE_A_CRC + sizes.RESPONSE + sizes.DATA_START + sizes.DATA →
      ((List.range (sizes.TYPE_A_CRC + sizes.RESPONSE + sizes.DATA_START + sizes.DATA)).map
          (fun i => dev (s.pos + i) % 256)).getD i 0 = dev (s.pos + i) % 256 :=
    fun i hi => getD_map_range _ hi
  have htrue : ∀ i : Nat, i < sizes.TYPE_A + sizes.RESPONSE + sizes.DATA_START + sizes.DATA →
      ((List.range (sizes.TYPE_A + sizes.RESPONSE + sizes.DATA_START + sizes.DATA)).map
          (fun i => dev (s.pos + i) % 256)).getD i 0 = dev (s.pos + i) % 256 :=
    fun i hi => getD_map_range _ hi
  cases crcd
  case false =>
    simp only [Bool.false_eq_true, if_false] at hrs
    subst hrs
    simp only [hcmd]
    constructor
    · intro h
      simp only [read_register, read_reg, hcmd, command_fst, command_snd]
      rw [hfalse 5 (by decide), hfalse (5 + 1) (by decide), hfalse (5 + 2) (by decide)]
      rw [if_neg (by push_neg; simpa using h)]
      rw [← List.map_drop, ← List.map_take,
          show List.take (12 - 8) (List.drop 8 (List.range
              (sizes.TYPE_A_CRC + sizes.RESPONSE + sizes.DATA_START + sizes.DATA)))
            = [8, 9, 10, 11] from rfl]
      simp
    · intro h
      simp only [read_register, read_reg, hcmd, command_fst, command_snd]
      rw [hfalse 5 (by decide), hfalse (5 + 1) (by decide), hfalse (5 + 2) (by decide)]
      rw [if_pos (by by_contra hc; push_neg at hc; simp at h hc; tauto)]
  case true =>
    simp only [if_true] at hrs
    subst hrs
    simp only [hcmd]
    constructor
    · intro h
      simp only [read_register, read_reg, hcmd, command_fst, command_snd]
      rw [htrue 4 (by decide), htrue (4 + 1) (by decide), htrue (4 + 2) (by decide)]
      rw [if_neg (by push_neg; simpa using h)]
      rw [← List.map_drop, ← List.map_take,
          show List.take (11 - 7) (List.drop 7 (List.range
              (sizes.TYPE_A + sizes.RESPONSE + sizes.DATA_START + sizes.DATA)))
            = [7, 8, 9, 10] from rfl]
      simp
    · intro h
      simp only [read_register, read_reg, hcmd, command_fst, command_snd]
      rw [htrue 4 (by decide), htrue (4 + 1) (by decide), htrue (4 + 2) (by decide)]
      rw [if_pos (by by_contra hc; push_neg at hc; simp at h hc; tauto)]

/-- C5 witness: with CRC disabled, a device that echoes `0xca`, reports
status 0, presents the `0xf0` marker, and returns data `0x78,0,0,0`
makes `read_register(0x1070)` return the value `0x78`. -/
theorem read_register_validates_response_witness :
    (read_register
        (fun i => if i == 4 then 0xca else if i == 6 then 0xf0
          else if i == 7 then 0x78 else 0)
        ⟨false, true⟩ 0x1070 ⟨0, []⟩).1 = .ok 120 :=
  (read_register_validates_response
      (fun i => if i == 4 then 0xca else if i == 6 then 0xf0
        else if i == 7 then 0x78 else 0)
      ⟨false, true⟩ 0x1070 ⟨0, []⟩ 4 rfl).1 (by decide)

/-- Helper: outside the three `crc_index = 0` arms, the `crc_index`
chosen by the `match` of `SpiBus::command` is the opcode's shape
length. -/
theorem commandFill_snd (cmd : SpiCmd) (h1 : cmd ≠ .CmdDmaWrite)
    (h2 : cmd ≠ .CmdDmaExtWrite) (h3 : cmd ≠ .CmdDmaExtRead)
    (a d sz : Nat) (c : Bool) (buf : List Nat) :
    (commandFill cmd a d sz c buf).2 = cmd.shapeLen := by
  cases cmd <;>
    first
      | rfl
      | exact absurd rfl h1
      | exact absurd rfl h2
      | exact absurd rfl h3

set_option maxRecDepth 4096 in
/-- C2 counterexample: with CRC forced on, `command` with
`CMD_DMA_EXT_WRITE` (a TYPE_C opcode, shape length 7) does not place
the CRC byte at index 7: the arm sets `crc_index = 0`, so
`crc7(0x7f, []) << 1 = 0xfe` overwrites the opcode byte at index 0 and
index 7 keeps its zero fill. -/
theorem command_crc_not_at_shape_len :
    (command (fun _ => 0) ⟨true, false⟩ 8 .CmdDmaExtWrite 0x123456 0 5 false
        ⟨0, []⟩).2.trace
      = [[0xfe, 0x12, 0x34, 0x56, 0, 0, 5, 0]]
    ∧ ([0xfe, 0x12, 0x34, 0x56, 0, 0, 5, 0] : List Nat).getD
          SpiCmd.CmdDmaExtWrite.shapeLen 0
        ≠ ((crc7 0x7f (([0xfe, 0x12, 0x34, 0x56, 0, 0, 5, 0] : List Nat).take
            SpiCmd.CmdDmaExtWrite.shapeLen)) <<< 1) % 256 := by
  constructor
  · rfl
  · decide

/-- C2 amended: for every opcode except `CmdDmaWrite`, `CmdDmaExtWrite`
and `CmdDmaExtRead`, when CRC is active (`crc` forced on, or
`crc_disabled` not yet set), the buffer clocked out by `command` holds
`crc7(0x7f, buffer[0..shape_len]) << 1` at index `shape_len` and keeps
the encoded command in the bytes `0..shape_len`; for the three
excepted opcodes the `match` arm sets `crc_index = 0`, so the CRC byte
overwrites the opcode byte instead. -/
theorem command_crc_at_shape_len (cmd : SpiCmd)
    (h1 : cmd ≠ .CmdDmaWrite) (h2 : cmd ≠ .CmdDmaExtWrite)
    (h3 : cmd ≠ .CmdDmaExtRead) (dev : Nat → Nat) (bus : SpiBus)
    (bufLen address data size : Nat) (clockless : Bool) (s : BusState)
    (hcrc : (bus.crc || !bus.crc_disabled) = true)
    (hlen : cmd.shapeLen < bufLen) :
    (command dev bus bufLen cmd address data size clockless s).2.trace
      = s.trace ++ [commandWritten bus bufLen cmd address data size clockless]
    ∧ (commandWritten bus bufLen cmd address data size clockless).getD
          cmd.shapeLen 0
        = ((crc7 0x7f ((commandWritten bus bufLen cmd address data size
            clockless).take cmd.shapeLen)) <<< 1) % 256
    ∧ (commandWritten bus bufLen cmd address data size clockless).take
          cmd.shapeLen
        = ((commandFill cmd address data size clockless
            (List.replicate bufLen 0)).1).take cmd.shapeLen := by
  rcases hf : commandFill cmd address data size clockless (List.replicate bufLen 0)
    with ⟨fill1, ci⟩
  have hci : ci = cmd.shapeLen := by
    have h := commandFill_snd cmd h1 h2 h3 address data size clockless
      (List.replicate bufLen 0)
    rw [hf] at h
    simpa using h
  have hflen : fill1.length = bufLen := by
    have h := commandFill_fst_length cmd address data size clockless
      (List.replicate bufLen 0)
    rw [hf] at h
    simpa using h
  have hcw : commandWritten bus bufLen cmd address data size clockless
      = fill1.set cmd.shapeLen
          ((crc7 0x7f (fill1.take cmd.shapeLen) <<< 1) % 256) := by
    unfold commandWritten
    rw [hf]
    simp only [hcrc, if_pos, hci]
  have htake : (commandWritten bus bufLen cmd address data size clockless).take
        cmd.shapeLen
      = fill1.take cmd.shapeLen := by
    rw [hcw, List.set_take]
    exact List.set_eq_of_length_le (by simp)
  refine ⟨?_, ?_, ?_⟩
  · simp [command_snd]
  · rw [htake, hcw]
    rw [List.getD_eq_getElem?_getD,
        List.getElem?_set_self (by rw [hflen]; exact hlen)]
    rfl
  · rw [htake]

/-- C2 witness: the amended theorem applied to `CMD_SINGLE_READ`
(TYPE_A, shape length 4) with CRC active in a 12-byte buffer. -/
theorem command_crc_at_shape_len_witness :
    (command (fun _ => 0) ⟨false, false⟩ 12 .CmdSingleRead 0x1070 0 0 false
        ⟨0, []⟩).2.trace
      = ([] : List (List Nat))
          ++ [commandWritten ⟨false, false⟩ 12 .CmdSingleRead 0x1070 0 0 false]
    ∧ (commandWritten ⟨false, false⟩ 12 .CmdSingleRead 0x1070 0 0 false).getD
          SpiCmd.CmdSingleRead.shapeLen 0
        = ((crc7 0x7f ((commandWritten ⟨false, false⟩ 12 .CmdSingleRead 0x1070
            0 0 false).take SpiCmd.CmdSingleRead.shapeLen)) <<< 1) % 256
    ∧ (commandWritten ⟨false, false⟩ 12 .CmdSingleRead 0x1070 0 0 false).take
          SpiCmd.CmdSingleRead.shapeLen
        = ((commandFill .CmdSingleRead 0x1070 0 0 false
            (List.replicate 12 0)).1).take SpiCmd.CmdSingleRead.shapeLen :=
  command_crc_at_shape_len .CmdSingleRead (by decide) (by decide) (by decide)
    (fun _ => 0) ⟨false, false⟩ 12 0x1070 0 0 false ⟨0, []⟩ (by decide) (by decide)

/-- Helper: `finish_reception` always leaves `read_done = true` —
the flag is set before the register handshake, so even a failing
handshake keeps it set. -/
theorem finish_reception_read_done (dev : Nat → Nat) (bus : SpiBus)
    (ctx : HifContext) (s : BusState) :
    ((finish_reception dev bus ctx s).2.1).read_done = true := by
  unfold finish_reception
  split
  · simp
  · split <;> simp

/-- Helper: the closing step of `isr` always leaves `read_done = true`:
either the context already reported the read done, or it restores the
flag through `finish_reception`, which sets it before any register
traffic. -/
theorem isrFinish_read_done_any (dev : Nat → Nat) (bus : SpiBus)
    (cmd : Option Command) (ctx : HifContext) (state : State) (s : BusState) :
    ((isrFinish dev bus cmd ctx state s).2.1).read_done = true := by
  unfold isrFinish
  cases hd : ctx.read_done
  · simp only [Bool.not_false, if_true]
    rcases hfr : finish_reception dev bus ctx s with ⟨res, ctx2, s2⟩
    have h := finish_reception_read_done dev bus ctx s
    rw [hfr] at h
    cases res <;> simpa using h
  · simpa using hd

/-- C10: read-context invariant of the HIF engine.  `HifContext` is
created with `read_done = true`, and whenever `isr` is entered with
`read_done = true` and returns `Ok`, the context again has
`read_done = true` on exit: either the new-data bit was clear and the
flag was never touched, or the flag was cleared and `finish_reception`
ran (directly or through `receive`) before the `Ok` return. -/
theorem isr_read_done_invariant :
    HifContext.default.read_done = true
      ∧ ∀ (dev : Nat → Nat) (bus : SpiBus) (ctx : HifContext)
          (state : State) (s : BusState),
          ctx.read_done = true →
          ((isr dev bus ctx state s).1).isOk = true →
          ((isr dev bus ctx state s).2.1).read_done = true := by
  refine ⟨rfl, ?_⟩
  intro dev bus ctx state s hdone
  unfold isr
  dsimp only
  split
  · intro hok; simp [Except.isOk, Except.toBool] at hok
  · split
    · split
      · intro hok; simp [Except.isOk, Except.toBool] at hok
      · split
        · split
          · intro hok; simp [Except.isOk, Except.toBool] at hok
          · split
            · intro hok; simp [Except.isOk, Except.toBool] at hok
            · split
              · split
                · intro hok; simp [Except.isOk, Except.toBool] at hok
                · intro _; exact isrFinish_read_done_any _ _ _ _ _ _
              · split
                · split
                  · intro hok; simp [Except.isOk, Except.toBool] at hok
                  · intro _; exact isrFinish_read_done_any _ _ _ _ _ _
                · intro _; exact isrFinish_read_done_any _ _ _ _ _ _
        · intro _; exact isrFinish_read_done_any _ _ _ _ _ _
    · intro _; exact hdone

/-- C10 witness: a device whose control-register read succeeds with the
new-data bit clear leaves the freshly created context marked done. -/
theorem isr_read_done_invariant_witness :
    ((isr (fun i => if i == 4 then 0xca else if i == 6 then 0xf0 else 0)
        ⟨false, true⟩ HifContext.default State.default ⟨0, []⟩).2.1).read_done
      = true :=
  isr_read_done_invariant.2
    (fun i => if i == 4 then 0xca else if i == 6 then 0xf0 else 0)
    ⟨false, true⟩ HifContext.default State.default ⟨0, []⟩ rfl rfl

end Atwinc
